import Mathlib

/-!
Verification development for the euclid container launcher.

The definitions below are a shallow embedding of the C sources of the
repository (src/src/*.c).  Pure computations (string formatting, the BPF
filter program, wait-status decoding) are translated into Lean functions;
the two orchestrator functions `main` (the Supervisor) and `child_main`
(the Init process) are modelled as trace-producing functions over an
environment that fixes the outcome of every system call they perform.
Theorems about the claims of the specification follow the definitions.
-/

set_option maxRecDepth 100000

namespace Euclid

/-! ### Decimal formatting (the `%d` conversion used by `snprintf`) -/

/-- Decimal digit string of a natural number, most significant digit first.
This is the digit sequence produced by the `%d`/`%u` conversions of the C
library for a non-negative value. -/
def natDecimal (n : Nat) : List Char :=
  if h : n < 10 then [Char.ofNat (48 + n)]
  else natDecimal (n / 10) ++ [Char.ofNat (48 + n % 10)]
decreasing_by exact Nat.div_lt_self (by omega) (by omega)

/-- Character sequence produced by the C `%d` conversion for an integer:
a minus sign followed by the decimal digits of the magnitude when the value
is negative, the plain digit string otherwise. -/
def intDecimal (v : Int) : List Char :=
  if v < 0 then '-' :: natDecimal v.natAbs else natDecimal v.natAbs

/-- Semantics of `snprintf(dst, size, ...)` for a formatted result `s`:
at most `size - 1` characters are stored (the rest is truncated away). -/
def snprintfTrunc (size : Nat) (s : List Char) : List Char :=
  s.take (size - 1)

/-- The in-memory bytes of a NUL-terminated C string object. -/
def cStringMem (s : List Char) : List Char :=
  s ++ [Char.ofNat 0]

/-- Bytes transmitted by `write(fd, buf, count)` when `buf` holds the C
string `s`: the first `count` bytes of the string object (terminator
included when `count` exceeds the string length). -/
def writeTransmitted (s : List Char) (count : Nat) : List Char :=
  (cStringMem s).take count

/-! ### Cgroup driver (src/src/cgroups.c) -/

/-- Maximum length for values written to cgroup files (`VALUE_MAX`). -/
def VALUE_MAX : Nat := 128

/-- Path of the controller file written by `enable_controllers`. -/
def subtree_control_path : String := "/sys/fs/cgroup/cgroup.subtree_control"

/-- The controller list string of `enable_controllers`. -/
def subtree_control_buf : List Char := ("+cpu +memory +pids\n").data

/-- The byte count passed to `write` in `enable_controllers` is the literal
`20` (`write(subtree_control_fd, "+cpu +memory +pids\n", 20)`). -/
def subtree_control_count : Nat := 20

/-- Bytes `enable_controllers` transmits to `cgroup.subtree_control`. -/
def enable_controllers_write : List Char :=
  writeTransmitted subtree_control_buf subtree_control_count

/-- Path written by `set_limit_int` / `set_limit_str`:
`snprintf(limit_path, PATH_MAX, "/sys/fs/cgroup/euclid/%s", filename)`. -/
def limit_path (filename : String) : String :=
  "/sys/fs/cgroup/euclid/" ++ filename

/-- Value string of `set_limit_int`: `"max\n"` when the value is `-1`,
`snprintf(value_str, VALUE_MAX, "%d\n", value)` otherwise. -/
def set_limit_int_value (value : Int) : List Char :=
  if value = -1 then snprintfTrunc VALUE_MAX (("max\n").data)
  else snprintfTrunc VALUE_MAX (intDecimal value ++ ("\n").data)

/-- Value string of `set_limit_str`:
`snprintf(value_str, VALUE_MAX, "%s\n", value)`. -/
def set_limit_str_value (value : List Char) : List Char :=
  snprintfTrunc VALUE_MAX (value ++ ("\n").data)

/-- Resource-limit fields of `struct container_ctx` consumed by
`configure_cgroups` (the integer fields are C `int`s). -/
structure CgroupLimits where
  cpu_max : List Char
  mem_max : Int
  mem_high : Int
  mem_swap_max : Int
  pids_max : Int

/-- The ordered list of (path, transmitted bytes) file writes performed by a
fully successful run of `configure_cgroups`: the subtree-control write of
`enable_controllers` followed by the five limit-file writes (the
`mkdir` of the euclid directory sits between the first and second entry but
is not a file write).  `set_limit_int` and `set_limit_str` pass
`strlen(value_str)` as the count, so they transmit exactly the value
string. -/
def configure_cgroups_writes (ctx : CgroupLimits) : List (String × List Char) :=
  [(subtree_control_path, enable_controllers_write),
   (limit_path ("cpu.max"), set_limit_str_value ctx.cpu_max),
   (limit_path ("memory.max"), set_limit_int_value ctx.mem_max),
   (limit_path ("memory.high"), set_limit_int_value ctx.mem_high),
   (limit_path ("memory.swap.max"), set_limit_int_value ctx.mem_swap_max),
   (limit_path ("pids.max"), set_limit_int_value ctx.pids_max)]

/-! ### Seccomp-BPF filter program (src/src/filter.c)

The filter is built for the x86_64 syscall table (the source is
host-architecture specific and its comments fix x86_64).  Each `ALLOW(nr)`
macro expands to a conditional jump followed by an allow-return; the
program starts by loading the syscall number (offset 0 of `seccomp_data`)
and ends with an unconditional kill-process return. -/

/-- One BPF instruction (`struct sock_filter`): opcode, the two jump
offsets and the constant operand. -/
structure SockFilter where
  code : Nat
  jt : Nat
  jf : Nat
  k : Nat
deriving DecidableEq

/-- Opcode `BPF_LD | BPF_W | BPF_ABS`. -/
def BPF_LD_W_ABS : Nat := 0x20

/-- Opcode `BPF_JMP | BPF_JEQ | BPF_K`. -/
def BPF_JMP_JEQ_K : Nat := 0x15

/-- Opcode `BPF_RET | BPF_K`. -/
def BPF_RET_K : Nat := 0x06

/-- Seccomp action value `SECCOMP_RET_ALLOW`. -/
def SECCOMP_RET_ALLOW : Nat := 0x7fff0000

/-- Seccomp action value `SECCOMP_RET_KILL_PROCESS`. -/
def SECCOMP_RET_KILL_PROCESS : Nat := 0x80000000

/-- Expansion of the `ALLOW(syscall)` macro: jump-if-equal (skip 0 on
match, 1 otherwise) followed by a return of `SECCOMP_RET_ALLOW`. -/
def ALLOW (syscall : Nat) : List SockFilter :=
  [⟨BPF_JMP_JEQ_K, 0, 1, syscall⟩,
   ⟨BPF_RET_K, 0, 0, SECCOMP_RET_ALLOW⟩]

/-- The `filter` instruction array of src/src/filter.c, with each
`__NR_*` constant replaced by its x86_64 number (noted in a comment). -/
def seccomp_filter : List SockFilter :=
  -- BPF_STMT(BPF_LD | BPF_W | BPF_ABS, offsetof(struct seccomp_data, nr)):
  -- the nr field is at offset 0.
  [⟨BPF_LD_W_ABS, 0, 0, 0⟩]
  -- File and directory operations
  ++ ALLOW 21   -- access
  ++ ALLOW 269  -- faccessat
  ++ ALLOW 80   -- chdir
  ++ ALLOW 3    -- close
  ++ ALLOW 32   -- dup
  ++ ALLOW 33   -- dup2
  ++ ALLOW 292  -- dup3
  ++ ALLOW 91   -- fchmod
  ++ ALLOW 268  -- fchmodat
  ++ ALLOW 93   -- fchown
  ++ ALLOW 260  -- fchownat
  ++ ALLOW 72   -- fcntl
  ++ ALLOW 75   -- fdatasync
  ++ ALLOW 5    -- fstat
  ++ ALLOW 74   -- fsync
  ++ ALLOW 79   -- getcwd
  ++ ALLOW 217  -- getdents64
  ++ ALLOW 8    -- lseek
  ++ ALLOW 6    -- lstat
  ++ ALLOW 83   -- mkdir
  ++ ALLOW 258  -- mkdirat
  ++ ALLOW 262  -- newfstatat
  ++ ALLOW 2    -- open
  ++ ALLOW 257  -- openat
  ++ ALLOW 437  -- openat2
  ++ ALLOW 22   -- pipe
  ++ ALLOW 7    -- poll
  ++ ALLOW 17   -- pread64
  ++ ALLOW 18   -- pwrite64
  ++ ALLOW 0    -- read
  ++ ALLOW 89   -- readlink
  ++ ALLOW 267  -- readlinkat
  ++ ALLOW 19   -- readv
  ++ ALLOW 82   -- rename
  ++ ALLOW 264  -- renameat
  ++ ALLOW 316  -- renameat2
  ++ ALLOW 84   -- rmdir
  ++ ALLOW 4    -- stat
  ++ ALLOW 332  -- statx
  ++ ALLOW 88   -- symlink
  ++ ALLOW 266  -- symlinkat
  ++ ALLOW 87   -- unlink
  ++ ALLOW 263  -- unlinkat
  ++ ALLOW 280  -- utimensat
  ++ ALLOW 1    -- write
  ++ ALLOW 20   -- writev
  -- Process management
  ++ ALLOW 158  -- arch_prctl
  ++ ALLOW 56   -- clone
  ++ ALLOW 59   -- execve
  ++ ALLOW 322  -- execveat
  ++ ALLOW 60   -- exit
  ++ ALLOW 231  -- exit_group
  ++ ALLOW 57   -- fork
  ++ ALLOW 39   -- getpid
  ++ ALLOW 121  -- getpgid
  ++ ALLOW 110  -- getppid
  ++ ALLOW 186  -- gettid
  ++ ALLOW 102  -- getuid
  ++ ALLOW 107  -- geteuid
  ++ ALLOW 157  -- prctl
  ++ ALLOW 109  -- setpgid
  ++ ALLOW 61   -- wait4
  ++ ALLOW 247  -- waitid
  -- Memory management
  ++ ALLOW 12   -- brk
  ++ ALLOW 28   -- madvise
  ++ ALLOW 9    -- mmap
  ++ ALLOW 10   -- mprotect
  ++ ALLOW 25   -- mremap
  ++ ALLOW 11   -- munmap
  -- Time and scheduling
  ++ ALLOW 228  -- clock_gettime
  ++ ALLOW 230  -- clock_nanosleep
  ++ ALLOW 96   -- gettimeofday
  ++ ALLOW 35   -- nanosleep
  ++ ALLOW 201  -- time
  ++ ALLOW 24   -- sched_yield
  -- Signals
  ++ ALLOW 13   -- rt_sigaction
  ++ ALLOW 14   -- rt_sigprocmask
  ++ ALLOW 15   -- rt_sigreturn
  ++ ALLOW 131  -- sigaltstack
  ++ ALLOW 234  -- tgkill
  ++ ALLOW 200  -- tkill
  -- Resource limits
  ++ ALLOW 97   -- getrlimit
  ++ ALLOW 302  -- prlimit64
  ++ ALLOW 160  -- setrlimit
  -- Miscellaneous
  ++ ALLOW 202  -- futex
  ++ ALLOW 318  -- getrandom
  ++ ALLOW 16   -- ioctl
  ++ ALLOW 273  -- set_robust_list
  ++ ALLOW 218  -- set_tid_address
  ++ ALLOW 63   -- uname
  ++ ALLOW 95   -- umask
  -- Fall-through: the syscall is not whitelisted, kill the process.
  ++ [⟨BPF_RET_K, 0, 0, SECCOMP_RET_KILL_PROCESS⟩]

/-- Executor for the classic-BPF fragment used by the filter: the
accumulator starts at 0, `BPF_LD|BPF_W|BPF_ABS` at offset 0 loads the
syscall number, `BPF_JMP|BPF_JEQ|BPF_K` skips `jt` (match) or `jf`
(mismatch) further instructions, and `BPF_RET|BPF_K` yields the action.
The fuel bounds the number of executed instructions; `none` means the
program ran off its end (never the case for the filter above). -/
def bpfGo (prog : List SockFilter) (nr : Nat) : Nat → Nat → Nat → Option Nat
  | 0, _, _ => none
  | fuel + 1, pc, acc =>
    match prog.get? pc with
    | none => none
    | some i =>
      if i.code = BPF_LD_W_ABS then
        if i.k = 0 then bpfGo prog nr fuel (pc + 1) nr else none
      else if i.code = BPF_JMP_JEQ_K then
        bpfGo prog nr fuel (pc + 1 + (if acc = i.k then i.jt else i.jf)) acc
      else if i.code = BPF_RET_K then
        some i.k
      else none

/-- Result of running the seccomp filter program on syscall number `nr`. -/
def run_filter (nr : Nat) : Option Nat :=
  bpfGo seccomp_filter nr seccomp_filter.length 0 0

/-! ### Overlay assembly (setup_overlay, src/src/child.c lines 129-253)

`setup_overlay` builds the three sub-directory paths with `malloc` +
`snprintf`.  The lengths passed to `snprintf` are embedded exactly as the
source computes them; note that the call building the merged path is given
`upper_len`, not `merged_len`. -/

/-- Result of the path construction and directory/mount operations of a
fully successful `setup_overlay` run. -/
structure OverlayResult where
  /-- `mkdir(ctx->overlay_base, 0755)`, tolerating `EEXIST`. -/
  baseDir : List Char × Nat
  /-- The three `mkdir(..., 0755)` calls inside the tmpfs, in program
  order. -/
  subDirs : List (List Char × Nat)
  /-- Mount options of the overlay mount. -/
  mountOpts : List Char
  /-- Target of the overlay mount. -/
  mountTarget : List Char
  /-- Value stored into `ctx->rootfs` after the overlay mount succeeds. -/
  newRootfs : List Char
deriving DecidableEq

/-- Path construction and directory/mount operations of `setup_overlay`.
`base` is `ctx->overlay_base` and `rootfs` is the incoming `ctx->rootfs`
(the overlay lower layer). -/
def setup_overlay_model (base rootfs : List Char) : OverlayResult :=
  -- int work_len = strlen(ctx->overlay_base) + strlen("/work") + 1;
  let work_len := base.length + ("/work").length + 1
  -- snprintf(overlay_work, work_len, "%s/work", ctx->overlay_base);
  let overlay_work := snprintfTrunc work_len (base ++ ("/work").data)
  -- int upper_len = strlen(ctx->overlay_base) + strlen("/upper") + 1;
  let upper_len := base.length + ("/upper").length + 1
  -- snprintf(overlay_upper, upper_len, "%s/upper", ctx->overlay_base);
  let overlay_upper := snprintfTrunc upper_len (base ++ ("/upper").data)
  -- int merged_len = strlen(ctx->overlay_base) + strlen("/merged") + 1;
  -- (merged_len only sizes the malloc; the snprintf below is passed
  -- upper_len, exactly as in the source:
  -- snprintf(overlay_merged, upper_len, "%s/merged", ctx->overlay_base);)
  let overlay_merged := snprintfTrunc upper_len (base ++ ("/merged").data)
  -- const int mount_opts_length = strlen("lowerdir=,upperdir=,workdir=")
  --   + strlen(ctx->rootfs) + strlen(overlay_upper) + strlen(overlay_work) + 1;
  let mount_opts_length := ("lowerdir=,upperdir=,workdir=").length
    + rootfs.length + overlay_upper.length + overlay_work.length + 1
  -- snprintf(mount_opts, mount_opts_length,
  --          "lowerdir=%s,upperdir=%s,workdir=%s", ...);
  let mount_opts := snprintfTrunc mount_opts_length
    (("lowerdir=").data ++ rootfs ++ (",upperdir=").data ++ overlay_upper
      ++ (",workdir=").data ++ overlay_work)
  { baseDir := (base, 0o755)
    subDirs := [(overlay_work, 0o755), (overlay_upper, 0o755),
                (overlay_merged, 0o755)]
    mountOpts := mount_opts
    mountTarget := overlay_merged
    -- free(ctx->rootfs); ctx->rootfs = strdup(overlay_merged);
    newRootfs := overlay_merged }

/-! ### The Init process (child_main, src/src/child.c lines 557-651)

`child_main` is a linear sequence of fallible operations.  We model one
run as the list of operations the process actually performs, driven by an
environment that fixes the outcome of each underlying system call, plus a
flag telling whether `execvp` was reached. -/

/-- Outcome of one `prctl(PR_CAPBSET_DROP, cap, ...)` call. -/
inductive CapOutcome where
  | ok
  | einval
  | otherErr
deriving DecidableEq

/-- One operation performed by Init, in the order `child_main` attempts
them. -/
inductive ChildStep where
  /-- `read(ctx->pipe_fds[0], &pong, 1)` with its return value. -/
  | readSync (result : Int)
  /-- `add_self_to_cgroup()` (write `"0\n"` to euclid/cgroup.procs). -/
  | joinCgroup
  /-- `setup_uts_namespace` (`sethostname`). -/
  | setHostname
  /-- `setup_mount_propagation` (`mount(NULL, "/", NULL, MS_REC|MS_PRIVATE, NULL)`). -/
  | setMountPropagation
  /-- `setup_overlay` (tmpfs + overlay assembly). -/
  | setupOverlayStep
  /-- `setup_rootfs` (`pivot_root` sequence). -/
  | setupRootfsStep
  /-- `mount_dev` (`mount("devtmpfs", "/dev", ...)`). -/
  | mountDevStep
  /-- `mount_proc` (`mount("proc", "/proc", ...)`). -/
  | mountProcStep
  /-- `prctl(PR_CAPBSET_DROP, cap, 0, 0, 0)` for one capability. -/
  | capBoundingDrop (cap : Nat)
  /-- `capset` with the zeroed v3 payload. -/
  | capClearSets
  /-- `prctl(PR_SET_NO_NEW_PRIVS, 1, 0, 0, 0)`. -/
  | setNoNewPrivs
  /-- `prctl(PR_SET_SECCOMP, SECCOMP_MODE_FILTER, get_fprog(), 0, 0)`. -/
  | installSeccomp
  /-- `execvp(ctx->cmd[0], ctx->cmd)`. -/
  | execTarget
deriving DecidableEq

/-- Outcomes of the system calls `child_main` performs, one field per
fallible operation. -/
structure ChildEnv where
  /-- Return value of the 1-byte pipe read: `1` (byte received), `0`
  (end of file) or `-1` (error). -/
  readResult : Int
  joinOk : Bool
  hostnameOk : Bool
  propagationOk : Bool
  overlayOk : Bool
  rootfsOk : Bool
  devOk : Bool
  procOk : Bool
  /-- The kernel's `CAP_LAST_CAP`: the bounding-set loop runs for
  `cap = 0 .. capLast`. -/
  capLast : Nat
  /-- Outcome of `PR_CAPBSET_DROP` for each capability number. -/
  capOutcome : Nat → CapOutcome
  capsetOk : Bool
  noNewPrivsOk : Bool
  seccompOk : Bool

/-- The bounding-set loop of `drop_capabilities`: drops capabilities
`cap, cap+1, ...` for `n` iterations, stopping early when a drop fails
with an error other than `EINVAL`.  Returns the attempted drops and
whether the loop completed. -/
def capDropLoop (f : Nat → CapOutcome) : Nat → Nat → List ChildStep × Bool
  | _, 0 => ([], true)
  | cap, n + 1 =>
    match f cap with
    | CapOutcome.otherErr => ([ChildStep.capBoundingDrop cap], false)
    | _ =>
      let r := capDropLoop f (cap + 1) n
      (ChildStep.capBoundingDrop cap :: r.1, r.2)

/-- Operations of `drop_capabilities`: the bounding-set loop over
capabilities `0 .. capLast` followed (when the loop completes) by the
`capset` call clearing the effective/permitted/inheritable sets. -/
def drop_capabilities_trace (env : ChildEnv) : List ChildStep × Bool :=
  let l := capDropLoop env.capOutcome 0 (env.capLast + 1)
  if l.2 then (l.1 ++ [ChildStep.capClearSets], env.capsetOk) else (l.1, false)

/-- Trace of one `child_main` run: the operations performed, in order, and
whether `execvp` was invoked.  Each `if` mirrors the corresponding error
check in the source; in particular the pipe read is only checked against
`-1`. -/
def child_main_trace (env : ChildEnv) : List ChildStep × Bool :=
  let t0 := [ChildStep.readSync env.readResult]
  -- if (read(ctx->pipe_fds[0], &pong, 1) == -1) return -1;
  if env.readResult = -1 then (t0, false)
  else
  let t1 := t0 ++ [ChildStep.joinCgroup]
  if !env.joinOk then (t1, false)
  else
  let t2 := t1 ++ [ChildStep.setHostname]
  if !env.hostnameOk then (t2, false)
  else
  let t3 := t2 ++ [ChildStep.setMountPropagation]
  if !env.propagationOk then (t3, false)
  else
  let t4 := t3 ++ [ChildStep.setupOverlayStep]
  if !env.overlayOk then (t4, false)
  else
  let t5 := t4 ++ [ChildStep.setupRootfsStep]
  if !env.rootfsOk then (t5, false)
  else
  let t6 := t5 ++ [ChildStep.mountDevStep]
  if !env.devOk then (t6, false)
  else
  let t7 := t6 ++ [ChildStep.mountProcStep]
  if !env.procOk then (t7, false)
  else
  let d := drop_capabilities_trace env
  let t8 := t7 ++ d.1
  if !d.2 then (t8, false)
  else
  let t9 := t8 ++ [ChildStep.setNoNewPrivs]
  if !env.noNewPrivsOk then (t9, false)
  else
  let t10 := t9 ++ [ChildStep.installSeccomp]
  if !env.seccompOk then (t10, false)
  else
  (t10 ++ [ChildStep.execTarget], true)

/-- Steps that touch the filesystem or the cgroup hierarchy. -/
def isFsOrCgroupStep : ChildStep → Bool
  | ChildStep.joinCgroup => true
  | ChildStep.setMountPropagation => true
  | ChildStep.setupOverlayStep => true
  | ChildStep.setupRootfsStep => true
  | ChildStep.mountDevStep => true
  | ChildStep.mountProcStep => true
  | _ => false

/-- A fully successful environment in which the Supervisor wrote the sync
byte (`read` returns 1); `capLast` is 40 (`CAP_CHECKPOINT_RESTORE`). -/
def childEnvAllOk : ChildEnv :=
  { readResult := 1, joinOk := true, hostnameOk := true,
    propagationOk := true, overlayOk := true, rootfsOk := true,
    devOk := true, procOk := true, capLast := 40,
    capOutcome := fun _ => CapOutcome.ok, capsetOk := true,
    noNewPrivsOk := true, seccompOk := true }

/-- The environment seen by Init when the Supervisor dies before writing
the sync byte: the blocking pipe read returns 0 (end of file) and every
later operation still succeeds. -/
def childEnvEof : ChildEnv :=
  { childEnvAllOk with readResult := 0 }

/-! ### Wait-status decoding (wait_for_container, src/src/main.c lines 135-166)

The status word returned by `waitpid` is decoded with the glibc macros;
they are embedded here at the bit level. -/

/-- `SIGSYS` on Linux. -/
def SIGSYS : Nat := 31

/-- Value of a C `signed char` holding the low byte of `n`. -/
def signedChar (n : Nat) : Int :=
  if n % 256 < 128 then (n % 256 : Int) else (n % 256 : Int) - 256

/-- Glibc `WIFEXITED(status)`: `(status & 0x7f) == 0`. -/
def WIFEXITED (status : Nat) : Bool :=
  status % 128 == 0

/-- Glibc `WEXITSTATUS(status)`: `(status >> 8) & 0xff`. -/
def WEXITSTATUS (status : Nat) : Nat :=
  status / 256 % 256

/-- Glibc `WTERMSIG(status)`: `status & 0x7f`. -/
def WTERMSIG (status : Nat) : Nat :=
  status % 128

/-- Glibc `WIFSIGNALED(status)`:
`((signed char)(((status & 0x7f) + 1) >> 1)) > 0` (the shift on the signed
char is arithmetic; its operand here is 1..128 so it equals division by
two). -/
def WIFSIGNALED (status : Nat) : Bool :=
  decide (0 < signedChar (status % 128 + 1) / 2)

/-- One diagnostic line printed by `wait_for_container`.  The C prints
fixed format strings; `exitedNormally` carries no payload because the
corresponding `printf` is the constant `"Child exited normally\n"`, and
`killedBySignal` carries the signal number that is interpolated into
`"Child killed by signal %d: %s\n"` (the `%s` being `strsignal` of the
same number). -/
inductive WaitMsg where
  | exitedNormally
  | killedBySignal (sig : Nat)
  | seccompHint
deriving DecidableEq

/-- The report printed by `wait_for_container` for a given status word:
the `WIFEXITED` branch, then the `WIFSIGNALED` branch with its nested
`SIGSYS` hint. -/
def wait_for_container_report (status : Nat) : List WaitMsg :=
  (if WIFEXITED status then [WaitMsg.exitedNormally] else [])
  ++ (if WIFSIGNALED status then
        WaitMsg.killedBySignal (WTERMSIG status)
          :: (if WTERMSIG status == SIGSYS then [WaitMsg.seccompHint] else [])
      else [])

/-! ### The Supervisor (main, src/src/main.c lines 184-256)

`main` is again a linear sequence of fallible operations; the trace model
records them in order together with the final `exit` code.  Note that
`wait_for_container` never checks the return value of `waitpid` and `main`
exits with `EXIT_SUCCESS` regardless of how the child terminated. -/

/-- Value of `EXIT_SUCCESS`. -/
def EXIT_SUCCESS : Nat := 0

/-- Value of `EXIT_FAILURE`. -/
def EXIT_FAILURE : Nat := 1

/-- One operation performed by the Supervisor. -/
inductive SupStep where
  /-- `pipe(pipe_fds)` with its success flag. -/
  | createPipe (ok : Bool)
  /-- `init_ctx(pipe_fds)` with its success flag. -/
  | ctxInit (ok : Bool)
  /-- `spawn_container(ctx)` (clone with namespace flags). -/
  | spawnInit (ok : Bool)
  /-- `configure_cgroups(ctx)` with its success flag. -/
  | cgroupConfigure (ok : Bool)
  /-- `write(ctx->pipe_fds[1], &ping, 1)` with the byte count requested. -/
  | syncWrite (count : Nat)
  /-- `wait_for_container(pid)` (an unchecked `waitpid` plus the report);
  the field records the decoded status word. -/
  | waitChild (status : Nat)
  /-- `cleanup_ctx(ctx)`. -/
  | ctxCleanup
deriving DecidableEq

/-- Outcomes of the operations `main` performs. -/
structure SupEnv where
  pipeOk : Bool
  ctxOk : Bool
  spawnOk : Bool
  cgroupsOk : Bool
  writeOk : Bool
  /-- Whether the `waitpid` inside `wait_for_container` succeeded; the
  source never inspects its return value. -/
  waitpidOk : Bool
  /-- The status word `waitpid` stored (arbitrary when `waitpidOk` is
  false, which the source does not notice). -/
  waitStatus : Nat

/-- Trace of one `main` run: the operations performed, in order, and the
process exit code. -/
def main_trace (env : SupEnv) : List SupStep × Nat :=
  let t0 := [SupStep.createPipe env.pipeOk]
  if !env.pipeOk then (t0, EXIT_FAILURE)
  else
  let t1 := t0 ++ [SupStep.ctxInit env.ctxOk]
  if !env.ctxOk then (t1, EXIT_FAILURE)
  else
  let t2 := t1 ++ [SupStep.spawnInit env.spawnOk]
  if !env.spawnOk then (t2, EXIT_FAILURE)
  else
  let t3 := t2 ++ [SupStep.cgroupConfigure env.cgroupsOk]
  if !env.cgroupsOk then (t3, EXIT_FAILURE)
  else
  -- char ping = 'c'; if (write(ctx->pipe_fds[1], &ping, 1) == -1) ...
  let t4 := t3 ++ [SupStep.syncWrite 1]
  if !env.writeOk then (t4, EXIT_FAILURE)
  else
  let t5 := t4 ++ [SupStep.waitChild env.waitStatus, SupStep.ctxCleanup]
  (t5, EXIT_SUCCESS)

/-- Whether a Supervisor step is a write to the sync pipe. -/
def isSyncWrite : SupStep → Bool
  | SupStep.syncWrite _ => true
  | _ => false

/-- Environment in which the initial pipe read fails with an error
(`read` returns -1) and everything else would succeed. -/
def childEnvReadErr : ChildEnv :=
  { childEnvAllOk with readResult := -1 }

/-- Successful environment in which capability 38 does not exist
(`PR_CAPBSET_DROP` fails with `EINVAL` there), exercising the tolerated
error path of `drop_capabilities`. -/
def childEnvEinval : ChildEnv :=
  { childEnvAllOk with
    capOutcome := fun c => if c = 38 then CapOutcome.einval else CapOutcome.ok }

/-- Supervisor environment in which every operation succeeds and the child
is reported killed by `SIGSYS` (status word 31). -/
def supEnvAllOk : SupEnv :=
  { pipeOk := true, ctxOk := true, spawnOk := true, cgroupsOk := true,
    writeOk := true, waitpidOk := true, waitStatus := 31 }

/-- Supervisor environment in which `configure_cgroups` fails. -/
def supEnvCgroupsFail : SupEnv :=
  { supEnvAllOk with cgroupsOk := false }

/-- Supervisor environment in which `waitpid` itself fails while the child
was killed by `SIGSYS`. -/
def supEnvWaitFail : SupEnv :=
  { supEnvAllOk with waitpidOk := false }

/-! ## Helper lemmas -/

/-- The digit string of a natural number is non-empty and starts with a
decimal digit. -/
theorem natDecimal_head (n : Nat) :
    ∃ c cs, natDecimal n = c :: cs ∧ 48 ≤ c.toNat ∧ c.toNat ≤ 57 := by
  induction n using Nat.strong_induction_on with
  | _ n ih =>
    unfold natDecimal
    split
    case isTrue h =>
      refine ⟨Char.ofNat (48 + n), [], rfl, ?_, ?_⟩ <;>
        (interval_cases n <;> decide)
    case isFalse h =>
      obtain ⟨c, cs, heq, h1, h2⟩ :=
        ih (n / 10) (Nat.div_lt_self (by omega) (by omega))
      exact ⟨c, cs ++ [Char.ofNat (48 + n % 10)], by rw [heq]; rfl, h1, h2⟩

/-- A number below `10 ^ (k + 1)` has at most `k + 1` decimal digits. -/
theorem natDecimal_length_le (k : Nat) :
    ∀ n, n < 10 ^ (k + 1) → (natDecimal n).length ≤ k + 1 := by
  induction k with
  | zero =>
    intro n h
    unfold natDecimal
    split
    · simp
    · omega
  | succ k ih =>
    intro n h
    unfold natDecimal
    split
    · simp
    · have hdiv : n / 10 < 10 ^ (k + 1) := by
        apply Nat.div_lt_of_lt_mul
        calc n < 10 ^ (k + 2) := h
        _ = 10 * 10 ^ (k + 1) := by ring
      have := ih (n / 10) hdiv
      simp only [List.length_append, List.length_singleton]
      omega

/-- The `%d` output of an integer is non-empty and starts with a minus
sign or a decimal digit. -/
theorem intDecimal_head (v : Int) :
    ∃ c cs, intDecimal v = c :: cs
      ∧ (c = '-' ∨ (48 ≤ c.toNat ∧ c.toNat ≤ 57)) := by
  unfold intDecimal
  split
  · exact ⟨'-', natDecimal v.natAbs, rfl, Or.inl rfl⟩
  · obtain ⟨c, cs, heq, h1, h2⟩ := natDecimal_head v.natAbs
    exact ⟨c, cs, heq, Or.inr ⟨h1, h2⟩⟩

/-- The value string `set_limit_int` builds for a non-sentinel value never
reads `"max\n"`: its first character is a minus sign or a digit. -/
theorem set_limit_int_value_ne_max (v : Int) (hv : v ≠ -1) :
    set_limit_int_value v ≠ ("max\n").data := by
  unfold set_limit_int_value
  rw [if_neg hv]
  obtain ⟨c, cs, heq, hc⟩ := intDecimal_head v
  rw [heq]
  intro hcontra
  have hm : ("max\n").data = 'm' :: ['a', 'x', '\n'] := by decide
  rw [hm] at hcontra
  simp only [snprintfTrunc, VALUE_MAX, List.cons_append, List.take_succ_cons,
    List.cons.injEq] at hcontra
  have : c = 'm' := hcontra.1
  rcases hc with h | ⟨h1, h2⟩
  · rw [this] at h; exact absurd h (by decide)
  · rw [this] at h2; exact absurd h2 (by decide)

/-- For values in the range of a C `int`, no truncation happens in
`set_limit_int`'s `snprintf`: the value string is the `%d` output followed
by a newline. -/
theorem set_limit_int_value_of_ne (v : Int) (hv : v ≠ -1)
    (hlo : -2147483648 ≤ v) (hhi : v ≤ 2147483647) :
    set_limit_int_value v = intDecimal v ++ ("\n").data := by
  unfold set_limit_int_value
  rw [if_neg hv]
  have habs : v.natAbs < 10 ^ 10 := by
    have : v.natAbs ≤ 2147483648 := by omega
    omega
  have hlen : (natDecimal v.natAbs).length ≤ 10 := natDecimal_length_le 9 _ habs
  have hlen2 : (intDecimal v ++ ("\n").data).length ≤ 127 := by
    unfold intDecimal
    split <;> simp <;> omega
  unfold snprintfTrunc VALUE_MAX
  exact List.take_of_length_le (by omega)

/-- When no bounding-set drop fails with an error other than `EINVAL`, the
loop of `drop_capabilities` performs one drop per capability, in
increasing order, and completes. -/
theorem capDropLoop_ok (f : Nat → CapOutcome) :
    ∀ n start, (∀ c, start ≤ c → c < start + n → f c ≠ CapOutcome.otherErr) →
      capDropLoop f start n
        = ((List.range' start n).map ChildStep.capBoundingDrop, true) := by
  intro n
  induction n with
  | zero => intro start _; rfl
  | succ n ih =>
    intro start h
    have hf : f start ≠ CapOutcome.otherErr := h start le_rfl (by omega)
    have hrec := ih (start + 1) (fun c h1 h2 => h c (by omega) (by omega))
    unfold capDropLoop
    cases hfs : f start with
    | otherErr => exact absurd hfs hf
    | ok => rw [hrec]; simp [List.range'_succ]
    | einval => rw [hrec]; simp [List.range'_succ]

/-- On the fully successful path (the sync byte arrives, every later
operation succeeds and no capability drop fails fatally), `child_main`
performs exactly the documented bring-up sequence, in order, and reaches
`execvp`. -/
theorem child_trace_success (env : ChildEnv)
    (hr : env.readResult = 1) (hj : env.joinOk = true)
    (hh : env.hostnameOk = true) (hp : env.propagationOk = true)
    (ho : env.overlayOk = true) (hrf : env.rootfsOk = true)
    (hd : env.devOk = true) (hpr : env.procOk = true)
    (hcap : ∀ c, c ≤ env.capLast → env.capOutcome c ≠ CapOutcome.otherErr)
    (hcs : env.capsetOk = true) (hn : env.noNewPrivsOk = true)
    (hs : env.seccompOk = true) :
    child_main_trace env
      = ([ChildStep.readSync 1, ChildStep.joinCgroup, ChildStep.setHostname,
          ChildStep.setMountPropagation, ChildStep.setupOverlayStep,
          ChildStep.setupRootfsStep, ChildStep.mountDevStep,
          ChildStep.mountProcStep]
          ++ (List.range (env.capLast + 1)).map ChildStep.capBoundingDrop
          ++ [ChildStep.capClearSets, ChildStep.setNoNewPrivs,
              ChildStep.installSeccomp, ChildStep.execTarget], true) := by
  have hloop : capDropLoop env.capOutcome 0 (env.capLast + 1)
      = ((List.range' 0 (env.capLast + 1)).map ChildStep.capBoundingDrop,
         true) :=
    capDropLoop_ok env.capOutcome (env.capLast + 1) 0
      (fun c _ h2 => hcap c (by omega))
  have hdrop : drop_capabilities_trace env
      = ((List.range (env.capLast + 1)).map ChildStep.capBoundingDrop
          ++ [ChildStep.capClearSets], true) := by
    unfold drop_capabilities_trace
    rw [hloop, List.range_eq_range']
    simp [hcs]
  unfold child_main_trace
  rw [hr, hdrop]
  simp [hj, hh, hp, ho, hrf, hd, hpr, hn, hs]

/-! ## Model validation -/

/-- Sanity check of the BPF executor: whitelisted syscalls (read 0,
execve 59, umask 95) are allowed and a non-whitelisted one (keyctl 250)
falls through to the kill-process return. -/
theorem run_filter_validation :
    run_filter 0 = some SECCOMP_RET_ALLOW
    ∧ run_filter 59 = some SECCOMP_RET_ALLOW
    ∧ run_filter 95 = some SECCOMP_RET_ALLOW
    ∧ run_filter 250 = some SECCOMP_RET_KILL_PROCESS := by decide

/-! ## Claims -/

/-- C1.  The claim states that every outcome of the initial 1-byte pipe
read other than successfully receiving one byte makes Init exit without
joining the cgroup.  The code only checks the read result against `-1`,
so on end-of-file (`read` returns 0, the outcome produced when the
Supervisor dies before writing the byte) Init proceeds, joins the cgroup
and runs the whole bring-up: `joinCgroup` is in the trace and `execvp` is
reached.  Only the error outcome `-1` aborts before the join. -/
theorem c1_eof_still_joins_cgroup :
    childEnvEof.readResult = 0
    ∧ ChildStep.joinCgroup ∈ (child_main_trace childEnvEof).1
    ∧ (child_main_trace childEnvEof).2 = true
    ∧ ChildStep.joinCgroup ∉ (child_main_trace childEnvReadErr).1 := by decide

/-- C2, counterexample.  The claim states that the filter contains an
ALLOW entry for `socket` (x86_64 number 41); running the embedded filter
program on 41 in fact falls through to the final kill-process return. -/
theorem c2_socket_not_allowed :
    run_filter 41 = some SECCOMP_RET_KILL_PROCESS
    ∧ some SECCOMP_RET_KILL_PROCESS ≠ some SECCOMP_RET_ALLOW := by decide

/-- C2, amended.  The whitelist has no entries for `sendfile` (40),
`socket` (41), `connect` (42) or `recvfrom` (45): the filter program
returns `SECCOMP_RET_KILL_PROCESS` on each of these syscall numbers. -/
theorem c2_network_syscalls_killed :
    run_filter 40 = some SECCOMP_RET_KILL_PROCESS
    ∧ run_filter 41 = some SECCOMP_RET_KILL_PROCESS
    ∧ run_filter 42 = some SECCOMP_RET_KILL_PROCESS
    ∧ run_filter 45 = some SECCOMP_RET_KILL_PROCESS := by decide

/-- C3.  The claim states that `setup_overlay` creates the three
sub-directories `upper`, `work` and `merged` and afterwards points
`ctx->rootfs` at `{overlay_base}/merged`.  Because the `snprintf` that
builds the merged path is passed `upper_len` (one byte too small), the
path is truncated to `{overlay_base}/merge`: evaluated at the overlay
base `/tmp/overlay`, the three `mkdir(..., 0755)` calls create `work`,
`upper` and `merge`, and the rootfs field is set to `/tmp/overlay/merge`,
not `/tmp/overlay/merged`. -/
theorem c3_merged_path_truncated :
    (setup_overlay_model (("/tmp/overlay").data)
        (("/home/noodle/alpine").data)).subDirs
      = [((("/tmp/overlay/work").data), 0o755),
         ((("/tmp/overlay/upper").data), 0o755),
         ((("/tmp/overlay/merge").data), 0o755)]
    ∧ (setup_overlay_model (("/tmp/overlay").data)
        (("/home/noodle/alpine").data)).newRootfs
      = ("/tmp/overlay/merge").data
    ∧ (setup_overlay_model (("/tmp/overlay").data)
        (("/home/noodle/alpine").data)).newRootfs
      ≠ ("/tmp/overlay/merged").data := by decide

/-- C5.  The claim states that `enable_controllers` writes exactly the
19-character string `"+cpu +memory +pids\n"`.  The call passes the byte
count 20, so the transmitted bytes are those 19 characters plus the
terminating NUL of the string object: one byte more than the claim
allows. -/
theorem c5_subtree_write_includes_nul :
    subtree_control_buf.length = 19
    ∧ subtree_control_count = 20
    ∧ enable_controllers_write = subtree_control_buf ++ [Char.ofNat 0]
    ∧ enable_controllers_write.length = 20
    ∧ enable_controllers_write ≠ subtree_control_buf := by decide

/-- C4.  On the successful path, Init's trace is exactly the bring-up
prefix (read, join cgroup, hostname, mount propagation, overlay, pivot,
/dev, /proc) followed by the lockdown segment in the exact order: one
bounding-set drop per capability 0..CAP_LAST_CAP (only EINVAL outcomes
are tolerated, which the `capOutcome` hypothesis permits), the `capset`
clearing the thread sets, `PR_SET_NO_NEW_PRIVS`, the seccomp install,
and then `execvp`; and no step of the lockdown segment touches the
filesystem or the cgroup hierarchy. -/
theorem c4_lockdown_order (env : ChildEnv)
    (hr : env.readResult = 1) (hj : env.joinOk = true)
    (hh : env.hostnameOk = true) (hp : env.propagationOk = true)
    (ho : env.overlayOk = true) (hrf : env.rootfsOk = true)
    (hd : env.devOk = true) (hpr : env.procOk = true)
    (hcap : ∀ c, c ≤ env.capLast → env.capOutcome c ≠ CapOutcome.otherErr)
    (hcs : env.capsetOk = true) (hn : env.noNewPrivsOk = true)
    (hs : env.seccompOk = true) :
    child_main_trace env
      = ([ChildStep.readSync 1, ChildStep.joinCgroup, ChildStep.setHostname,
          ChildStep.setMountPropagation, ChildStep.setupOverlayStep,
          ChildStep.setupRootfsStep, ChildStep.mountDevStep,
          ChildStep.mountProcStep]
          ++ (List.range (env.capLast + 1)).map ChildStep.capBoundingDrop
          ++ [ChildStep.capClearSets, ChildStep.setNoNewPrivs,
              ChildStep.installSeccomp, ChildStep.execTarget], true)
    ∧ ∀ s ∈ (List.range (env.capLast + 1)).map ChildStep.capBoundingDrop
          ++ [ChildStep.capClearSets, ChildStep.setNoNewPrivs,
              ChildStep.installSeccomp],
        isFsOrCgroupStep s = false := by
  refine ⟨child_trace_success env hr hj hh hp ho hrf hd hpr hcap hcs hn hs,
    ?_⟩
  intro s hsin
  simp only [List.mem_append, List.mem_map, List.mem_range,
    List.mem_cons, List.not_mem_nil, or_false] at hsin
  rcases hsin with ⟨c, _, rfl⟩ | rfl | rfl | rfl <;> rfl

/-- Witness for C4 at the concrete environment `childEnvEinval`
(`CAP_LAST_CAP` = 40 and capability 38 yielding the tolerated `EINVAL`). -/
theorem c4_lockdown_order_witness :
    child_main_trace childEnvEinval
      = ([ChildStep.readSync 1, ChildStep.joinCgroup, ChildStep.setHostname,
          ChildStep.setMountPropagation, ChildStep.setupOverlayStep,
          ChildStep.setupRootfsStep, ChildStep.mountDevStep,
          ChildStep.mountProcStep]
          ++ (List.range 41).map ChildStep.capBoundingDrop
          ++ [ChildStep.capClearSets, ChildStep.setNoNewPrivs,
              ChildStep.installSeccomp, ChildStep.execTarget], true)
    ∧ ∀ s ∈ (List.range 41).map ChildStep.capBoundingDrop
          ++ [ChildStep.capClearSets, ChildStep.setNoNewPrivs,
              ChildStep.installSeccomp],
        isFsOrCgroupStep s = false :=
  c4_lockdown_order childEnvEinval rfl rfl rfl rfl rfl rfl rfl rfl
    (fun c _ => by
      simp only [childEnvEinval, childEnvAllOk]
      split <;> decide)
    rfl rfl rfl

/-- C6, counterexample.  The claim states that on the successful bring-up
path the fresh proc filesystem is mounted before the devtmpfs; in the
trace of the fully successful environment the index of the /proc mount is
not below the index of the /dev mount. -/
theorem c6_proc_not_mounted_before_dev :
    ¬ (child_main_trace childEnvAllOk).1.indexOf ChildStep.mountProcStep
      < (child_main_trace childEnvAllOk).1.indexOf ChildStep.mountDevStep := by
  decide

/-- C6, amended.  On every successful bring-up path the devtmpfs is
mounted at /dev strictly before the fresh proc is mounted at /proc
(`mount_dev` is called before `mount_proc` in `child_main`). -/
theorem c6_dev_mounted_before_proc (env : ChildEnv)
    (hr : env.readResult = 1) (hj : env.joinOk = true)
    (hh : env.hostnameOk = true) (hp : env.propagationOk = true)
    (ho : env.overlayOk = true) (hrf : env.rootfsOk = true)
    (hd : env.devOk = true) (hpr : env.procOk = true)
    (hcap : ∀ c, c ≤ env.capLast → env.capOutcome c ≠ CapOutcome.otherErr)
    (hcs : env.capsetOk = true) (hn : env.noNewPrivsOk = true)
    (hs : env.seccompOk = true) :
    (child_main_trace env).1.indexOf ChildStep.mountDevStep
      < (child_main_trace env).1.indexOf ChildStep.mountProcStep := by
  rw [child_trace_success env hr hj hh hp ho hrf hd hpr hcap hcs hn hs]
  simp [List.indexOf_cons]

/-- Witness for C6 at the fully successful concrete environment. -/
theorem c6_dev_mounted_before_proc_witness :
    (child_main_trace childEnvAllOk).1.indexOf ChildStep.mountDevStep
      < (child_main_trace childEnvAllOk).1.indexOf ChildStep.mountProcStep :=
  c6_dev_mounted_before_proc childEnvAllOk rfl rfl rfl rfl rfl rfl rfl rfl
    (fun c _ => by simp [childEnvAllOk]) rfl rfl rfl

/-- C7.  Every Supervisor run writes to the sync pipe at most once and
any such write requests exactly one byte; when `configure_cgroups` fails
the run performs no sync write at all and exits with `EXIT_FAILURE`; and
whenever a sync write occurs, the trace splits around it with the
successful `configure_cgroups` step strictly before it. -/
theorem c7_sync_write_gated (env : SupEnv) :
    (main_trace env).1.countP isSyncWrite ≤ 1
    ∧ (env.cgroupsOk = false →
        (main_trace env).1.countP isSyncWrite = 0
        ∧ (main_trace env).2 = EXIT_FAILURE)
    ∧ (∀ b, SupStep.syncWrite b ∈ (main_trace env).1 → b = 1)
    ∧ ((∃ b, SupStep.syncWrite b ∈ (main_trace env).1) →
        env.cgroupsOk = true
        ∧ SupStep.cgroupConfigure true
            ∈ (main_trace env).1.takeWhile (fun s => !isSyncWrite s)) := by
  obtain ⟨p, c, s, g, w, wo, ws⟩ := env
  cases p <;> cases c <;> cases s <;> cases g <;> cases w <;>
    simp [main_trace, isSyncWrite, EXIT_FAILURE, EXIT_SUCCESS,
      List.takeWhile]

/-- Witness for C7: with `configure_cgroups` failing the Supervisor
exits with `EXIT_FAILURE` (second conjunct applied at
`supEnvCgroupsFail`), and the sync write of the fully successful run
carries exactly one byte (third conjunct applied at `supEnvAllOk`). -/
theorem c7_sync_write_gated_witness :
    (main_trace supEnvCgroupsFail).2 = EXIT_FAILURE
    ∧ (main_trace supEnvCgroupsFail).1.countP isSyncWrite = 0
    ∧ 1 = 1
    ∧ SupStep.cgroupConfigure true
        ∈ (main_trace supEnvAllOk).1.takeWhile (fun s => !isSyncWrite s) :=
  ⟨((c7_sync_write_gated supEnvCgroupsFail).2.1 rfl).2,
   ((c7_sync_write_gated supEnvCgroupsFail).2.1 rfl).1,
   (c7_sync_write_gated supEnvAllOk).2.2.1 1 (by decide),
   ((c7_sync_write_gated supEnvAllOk).2.2.2 ⟨1, by decide⟩).2⟩

/-- C8.  The value string `set_limit_int` writes is `"max\n"` exactly
when the field is the sentinel -1; for any other value in the range of a
C `int` it is the decimal representation followed by a newline; and a
context with `mem_max = -1` makes `configure_cgroups` write the literal
`"max\n"` to `/sys/fs/cgroup/euclid/memory.max`. -/
theorem c8_limit_serialization :
    (∀ v : Int, set_limit_int_value v = ("max\n").data ↔ v = -1)
    ∧ (∀ v : Int, v ≠ -1 → -2147483648 ≤ v → v ≤ 2147483647 →
        set_limit_int_value v = intDecimal v ++ ("\n").data)
    ∧ (∀ ctx : CgroupLimits, ctx.mem_max = -1 →
        (limit_path ("memory.max"), ("max\n").data)
          ∈ configure_cgroups_writes ctx) := by
  refine ⟨?_, set_limit_int_value_of_ne, ?_⟩
  · intro v
    constructor
    · intro h
      by_contra hv
      exact set_limit_int_value_ne_max v hv h
    · intro h
      rw [h]
      decide
  · intro ctx h
    have hm : set_limit_int_value ctx.mem_max = ("max\n").data := by
      rw [h]; decide
    simp [configure_cgroups_writes, hm]

/-- Witness for C8: the sentinel serializes to `"max\n"`, the value 256
serializes to `"256\n"`, and the concrete context of context.c with
`mem_max` set to -1 produces the `memory.max` write of `"max\n"`. -/
theorem c8_limit_serialization_witness :
    set_limit_int_value (-1) = ("max\n").data
    ∧ set_limit_int_value 256 = intDecimal 256 ++ ("\n").data
    ∧ (limit_path ("memory.max"), ("max\n").data)
        ∈ configure_cgroups_writes
            ⟨("100000, 100000").data, -1, 460800000, 0, 256⟩ :=
  ⟨(c8_limit_serialization.1 (-1)).mpr rfl,
   c8_limit_serialization.2.1 256 (by decide) (by decide) (by decide),
   c8_limit_serialization.2.2 ⟨("100000, 100000").data, -1, 460800000, 0, 256⟩
     rfl⟩

/-- C9, counterexample.  The claim states that a normal exit is reported
together with its exit code.  `wait_for_container` prints the constant
`"Child exited normally\n"` in the `WIFEXITED` branch: the reports for
the status words 768 (exit code 3) and 1792 (exit code 7) are identical,
so the report cannot carry the exit code. -/
theorem c9_report_omits_exit_code :
    WIFEXITED 768 = true ∧ WEXITSTATUS 768 = 3
    ∧ WIFEXITED 1792 = true ∧ WEXITSTATUS 1792 = 7
    ∧ wait_for_container_report 768 = wait_for_container_report 1792
    ∧ wait_for_container_report 768 = [WaitMsg.exitedNormally] := by decide

/-- C9, amended.  A normal exit is reported by the fixed message alone
(without the exit code); termination by a signal is reported with the
signal number (the printed line also interpolates `strsignal` of that
number); and the "likely seccomp violation" hint is attached exactly when
the terminating signal is `SIGSYS`. -/
theorem c9_report_decode (status : Nat) :
    (WIFEXITED status = true →
      wait_for_container_report status = [WaitMsg.exitedNormally])
    ∧ (WIFSIGNALED status = true →
        WaitMsg.killedBySignal (WTERMSIG status)
            ∈ wait_for_container_report status
        ∧ (WTERMSIG status = SIGSYS →
            WaitMsg.seccompHint ∈ wait_for_container_report status)
        ∧ (WTERMSIG status ≠ SIGSYS →
            WaitMsg.seccompHint ∉ wait_for_container_report status)) := by
  constructor
  · intro h
    have h0 : status % 128 = 0 := by
      simpa [WIFEXITED] using h
    have hsig : WIFSIGNALED status = false := by
      simp [WIFSIGNALED, h0, signedChar]
    simp [wait_for_container_report, WIFEXITED, h0, hsig]
  · intro h
    refine ⟨?_, ?_, ?_⟩
    · simp [wait_for_container_report, h]
    · intro h31
      simp [wait_for_container_report, h, h31, SIGSYS]
    · intro h31
      simp only [SIGSYS] at h31
      simp [wait_for_container_report, h, h31]
      simpa [SIGSYS] using h31

/-- Witness for C9: the report for status 768 (normal exit, code 3) and
the hint for status 31 (killed by `SIGSYS`). -/
theorem c9_report_decode_witness :
    wait_for_container_report 768 = [WaitMsg.exitedNormally]
    ∧ WaitMsg.seccompHint ∈ wait_for_container_report 31 :=
  ⟨(c9_report_decode 768).1 (by decide),
   ((c9_report_decode 31).2 (by decide)).2.1 (by decide)⟩

/-- C10.  Whenever pipe creation, context initialization, the spawn, the
cgroup configuration and the sync write all succeed, the Supervisor exits
with `EXIT_SUCCESS`, whatever status word `waitpid` produced for the
child (including kills by `SIGSYS`) and whether or not `waitpid` itself
succeeded. -/
theorem c10_supervisor_exit_success (env : SupEnv)
    (hp : env.pipeOk = true) (hc : env.ctxOk = true)
    (hs : env.spawnOk = true) (hg : env.cgroupsOk = true)
    (hw : env.writeOk = true) :
    (main_trace env).2 = EXIT_SUCCESS := by
  obtain ⟨p, c, s, g, w, wo, ws⟩ := env
  simp only at hp hc hs hg hw
  subst hp hc hs hg hw
  simp [main_trace]

/-- Witness for C10 at `supEnvWaitFail`: the child was killed by
`SIGSYS` and `waitpid` failed, yet the Supervisor exits successfully. -/
theorem c10_supervisor_exit_success_witness :
    (main_trace supEnvWaitFail).2 = EXIT_SUCCESS :=
  c10_supervisor_exit_success supEnvWaitFail rfl rfl rfl rfl rfl

end Euclid
